import Mathlib

/-!
Shallow embedding of `src/supa_slurm.py` (SupaSlurm).

The Python module defines three classes:
* `SlurmConfig` — stores SBATCH arguments (`_args`, an insertion-ordered dict),
  a command list (`_commands`) and a shell, and renders a submission script
  via `__str__`;
* `Slurm` — a manager wrapping one `SlurmConfig`, with `add_arguments`
  (special-casing the `time` and `array` keys), `add_commands`,
  `get_arguments`, `get_commands`, and `sbatch` (submission);
* `SlurmJob` — a handle for a submitted job, with `get_status`, `is_queued`,
  `hold_for_completion` and `cancel`.

Python values that can flow through the directive store are modelled by
`PyVal`; Python exceptions by `PyError`; the external process boundary
(`subprocess.run` results) by `ProcResult`.  Python strings are Lean
`String`s; the handful of string operations the source uses (`str.strip`,
`str.split`, `int(...)`, `re.search`) are re-implemented below over
character lists so that every definition is executable by the kernel.
Machine integers do not occur: Python integers are arbitrary-precision, so
they are modelled by `Int` (and `Nat` for indices) directly.
-/

namespace SupaSlurm

/-- Python values that the SupaSlurm code stores in the `_args` dict or
passes to `add_arguments`: strings, (arbitrary-precision) integers, and
`datetime.timedelta` objects.  A timedelta is represented by its integral
total of seconds, i.e. by `int(td.total_seconds())`, which is the only
quantity the source ever reads from it (line 149). -/
inductive PyVal where
  | vStr (s : String)
  | vInt (n : Int)
  | vTimedelta (totalSeconds : Int)
deriving DecidableEq, Repr

/-- Python exceptions that the modelled code can raise. -/
inductive PyError where
  | valueError
  | typeError
  | indexError
  | attributeError
  | calledProcessError
deriving DecidableEq, Repr

/-- Result of one run of an external command through the process boundary
(`subprocess.run(..., capture_output=True, text=True)`). -/
structure ProcResult where
  exitCode : Int
  stdout : String
  stderr : String
deriving DecidableEq, Repr

/-- Model of `subprocess.run(..., check=True)`: raises
`subprocess.CalledProcessError` when the exit status is non-zero, otherwise
returns the completed process. -/
def checkRun (r : ProcResult) : Except PyError ProcResult :=
  if r.exitCode = 0 then .ok r else .error .calledProcessError

/-- Whitespace characters stripped by Python `str.strip()` (the ASCII ones;
the source only ever strips ASCII scheduler output). -/
def pyIsSpace (c : Char) : Bool :=
  c == ' ' || c == '\t' || c == '\n' || c == '\r' || c == '\x0b' || c == '\x0c'

/-- Model of Python `str.strip()`: drop leading and trailing whitespace. -/
def pyStrip (s : String) : String :=
  String.mk (((s.toList.dropWhile pyIsSpace).reverse.dropWhile pyIsSpace).reverse)

/-- Auxiliary for `pySplit`: split a character list at every occurrence of
`sep`, keeping empty segments, like Python `str.split(sep)`. -/
def splitCharAux (sep : Char) : List Char → List Char → List (List Char)
  | [], acc => [acc.reverse]
  | c :: cs, acc =>
    if c == sep then acc.reverse :: splitCharAux sep cs []
    else splitCharAux sep cs (c :: acc)

/-- Model of Python `str.split(sep)` for a one-character separator:
`"a--b".split('-') == ['a', '', 'b']` and `"".split('-') == ['']`. -/
def pySplit (s : String) (sep : Char) : List String :=
  (splitCharAux sep s.toList []).map String.mk

/-- Numeric value of a list of decimal digit characters. -/
def digitsToNat (ds : List Char) : Nat :=
  ds.foldl (fun a c => a * 10 + (c.toNat - '0'.toNat)) 0

/-- Model of Python `int(str)`: strip whitespace, allow one optional sign,
then require a non-empty run of decimal digits; `none` models the
`ValueError` that `int` raises otherwise.  (Python also accepts underscore
digit separators and non-ASCII digits; the scheduler strings the source
parses never contain those.) -/
def pyInt (s : String) : Option Int :=
  match (pyStrip s).toList with
  | '-' :: ds =>
    if ds ≠ [] ∧ ds.all Char.isDigit then some (-(digitsToNat ds : Int)) else none
  | '+' :: ds =>
    if ds ≠ [] ∧ ds.all Char.isDigit then some (digitsToNat ds : Int) else none
  | ds =>
    if ds ≠ [] ∧ ds.all Char.isDigit then some (digitsToNat ds : Int) else none

/-- Model of Python `range(lo, hi)` materialised as the list of its
elements: the integers `lo, lo+1, ..., hi-1` (empty when `hi ≤ lo`). -/
def pyRange (lo hi : Int) : List Int :=
  (List.range (hi - lo).toNat).map (fun (i : Nat) => lo + (i : Int))

/-- Model of Python `f'{n:02}'` for an integer `n`: decimal rendering,
zero-padded on the left to a minimum width of two. -/
def pad2 (n : Int) : String :=
  if 0 ≤ n ∧ n < 10 then "0" ++ toString n else toString n

/-- Duration formatting of `Slurm.add_arguments` (source lines 148-155):
`total_s = int(val.total_seconds())`, then
`days, rem = divmod(total_s, 86400)`, `hours, rem = divmod(rem, 3600)`,
`minutes, seconds = divmod(rem, 60)`, rendered as
`f'{days}-{hours:02}:{minutes:02}:{seconds:02}'`.  Python `divmod` is
floored division, which for the positive divisors used here coincides with
`Int` division (`Int.ediv`). -/
def formatDuration (totalSeconds : Int) : String :=
  let days := totalSeconds / 86400
  let rem := totalSeconds % 86400
  let hours := rem / 3600
  let rem2 := rem % 3600
  let minutes := rem2 / 60
  let seconds := rem2 % 60
  toString days ++ "-" ++ pad2 hours ++ ":" ++ pad2 minutes ++ ":" ++ pad2 seconds

/-- Model of Python `str(datetime.timedelta(seconds=ts))` for a timedelta
of `ts` whole seconds; used only when a raw timedelta value is rendered
into the script text by an f-string (CPython formats `d day(s), h:mm:ss`
with floored days and unpadded hours, the day prefix only when non-zero). -/
def timedeltaStr (ts : Int) : String :=
  let d := ts / 86400
  let rem := ts % 86400
  let h := rem / 3600
  let m := rem % 3600 / 60
  let s := rem % 60
  let timePart := toString h ++ ":" ++ pad2 m ++ ":" ++ pad2 s
  if d = 0 then timePart
  else if d = 1 ∨ d = -1 then toString d ++ " day, " ++ timePart
  else toString d ++ " days, " ++ timePart

/-- Model of the Python f-string conversion `f'{val}'` (i.e. `str(val)`)
for the values that can sit in the `_args` dict. -/
def pyStrVal : PyVal → String
  | .vStr s => s
  | .vInt n => toString n
  | .vTimedelta ts => timedeltaStr ts

/-- Insertion-or-overwrite on an insertion-ordered association list,
modelling Python dict item assignment `d[k] = v`: overwriting an existing
key keeps its position, a new key is appended at the end. -/
def setKey {α : Type} (args : List (String × α)) (k : String) (v : α) :
    List (String × α) :=
  if args.any (fun p => p.1 == k) then
    args.map (fun p => if p.1 == k then (p.1, v) else p)
  else args ++ [(k, v)]

/-- State of a `SlurmConfig` object.  `_args` models the insertion-ordered
dict of SBATCH arguments, `_commands` the command list, `shell` the
interpreter line.  `arrayAttr` models the Python attribute
`self.config.array` as set by `setattr` on the `array` branch of
`Slurm.add_arguments` (line 165): there the stored attribute is the range
object used later by `Slurm.sbatch` for array fan-out; `none` means the
attribute was never set by that branch. -/
structure SlurmConfig where
  shell : String
  _args : List (String × PyVal)
  _commands : List String
  arrayAttr : Option (List Int)
deriving DecidableEq, Repr

/-- Model of `SlurmConfig.is_array_job` (source line 79):
`'array' in self._args.keys()`. -/
def SlurmConfig.is_array_job (cfg : SlurmConfig) : Bool :=
  cfg._args.any (fun p => p.1 == "array")

/-- Model of `SlurmConfig.__str__` (source lines 50-57): start from
`f'#!{self.shell}'`, append `f'\n#SBATCH --{arg}={val}'` for every stored
argument with `arg.replace('_', '-')` applied to the name, then append
`f'\n{command}'` for every command. -/
def SlurmConfig.render (cfg : SlurmConfig) : String :=
  let s0 := "#!" ++ cfg.shell
  let s1 := cfg._args.foldl
    (fun acc p => acc ++ "\n#SBATCH --" ++ p.1.replace "_" "-" ++ "=" ++ pyStrVal p.2) s0
  cfg._commands.foldl (fun acc c => acc ++ "\n" ++ c) s1

/-- State-passing embedding of the method call `self.config.__str__()`:
the method builds the script text from `self` but assigns no attribute of
`self` (the hyphenation on line 53 rebinds only the local variable `arg`),
so the post-state equals the pre-state. -/
def SlurmConfig.renderM (cfg : SlurmConfig) : String × SlurmConfig :=
  (cfg.render, cfg)

/-- Model of `SlurmConfig.add_command` (source line 68): append `cmd` to
`self._commands` verbatim. -/
def SlurmConfig.add_command (cfg : SlurmConfig) (cmd : String) : SlurmConfig :=
  { cfg with _commands := cfg._commands ++ [cmd] }

/-- Common tail of the `array` branch of `Slurm.add_arguments` (source
line 164): given the iteration object `val` (a materialised range or list),
the stored string is `f'{val[0]}-{val[-1]}'`; indexing an empty list raises
`IndexError`. -/
def arrayFromRange (r : List Int) : Except PyError (String × List Int) :=
  match r.head?, r.getLast? with
  | some a, some b => .ok (toString a ++ "-" ++ toString b, r)
  | _, _ => .error .indexError

/-- Array-value normalization of `Slurm.add_arguments` (source lines
157-164).  A string is split on `'-'`, each part parsed with `int`
(`ValueError` on failure), and turned into
`range(parts[0], parts[-1] + 1)`; an integer `n` becomes `range(0, n + 1)`.
The stored string `f'{val[0]}-{val[-1]}'` then indexes the range, raising
`IndexError` when it is empty.  A timedelta reaches the f-string unconverted
and is not subscriptable, so Python raises `TypeError` there. -/
def normalizeArray : PyVal → Except PyError (String × List Int)
  | .vStr s =>
    match (pySplit s '-').mapM pyInt with
    | none => .error .valueError
    | some [] => .error .valueError
    | some (p :: ps) => arrayFromRange (pyRange p ((p :: ps).getLast (by simp) + 1))
  | .vInt n => arrayFromRange (pyRange 0 (n + 1))
  | .vTimedelta _ => .error .typeError

/-- Model of one `(key, val)` iteration of `Slurm.add_arguments` (source
lines 147-169).  The `time` branch converts a timedelta value to the
`D-HH:MM:SS` string; the `array` branch normalizes the value, stores the
rendered bounds string in `_args`, and `setattr`s the range object onto the
config (modelled by `arrayAttr`); every other pair is stored as given.  The
guard `not isinstance(key, tuple)` on line 157 is always true, `key` being
a `str` keyword name. -/
def addArgument (cfg : SlurmConfig) (key : String) (val : PyVal) :
    Except PyError SlurmConfig :=
  let val1 :=
    if key == "time" then
      match val with
      | .vTimedelta ts => PyVal.vStr (formatDuration ts)
      | v => v
    else val
  if key == "array" then
    match normalizeArray val1 with
    | .error e => .error e
    | .ok sr =>
      .ok { cfg with _args := setKey cfg._args key (.vStr sr.1), arrayAttr := some sr.2 }
  else
    .ok { cfg with _args := setKey cfg._args key val1 }

/-- Model of `Slurm.get_arguments` (source line 193): returns
`self.config._args`. -/
def Slurm.get_arguments (cfg : SlurmConfig) : List (String × PyVal) :=
  cfg._args

/-- Model of `Slurm.get_commands` (source line 204): despite its name and
docstring, the body returns `self.config._args` — the directive mapping,
not the command list. -/
def Slurm.get_commands (cfg : SlurmConfig) : List (String × PyVal) :=
  cfg._args

/-- Split a character list at the first occurrence of `sep`; `none` when
`sep` does not occur.  Models Python `str.split(sep, 1)` followed by the
two-variable unpacking `key, val = ...`, which raises `ValueError` when the
separator is absent. -/
def splitOnceChar (sep : Char) : List Char → Option (List Char × List Char)
  | [] => none
  | c :: rest =>
    if c == sep then some ([], rest)
    else (splitOnceChar sep rest).map (fun p => (c :: p.1, p.2))

/-- Parsing loop of `SlurmJob._get_scontrol_attrs` (source lines 352-358):
split stdout on spaces, strip each token, skip empty tokens, split each
remaining token as `key, val = attr.split('=', 1)` (raising `ValueError`
when there is no `'='`), and assign into a dict. -/
def parseScontrol (out : String) : Except PyError (List (String × String)) :=
  (pySplit out ' ').foldlM
    (fun acc attr =>
      let attr1 := pyStrip attr
      if attr1 == "" then .ok acc
      else
        match splitOnceChar '=' attr1.toList with
        | none => .error .valueError
        | some kv => .ok (setKey acc (String.mk kv.1) (String.mk kv.2)))
    []

/-- State of a constructed `SlurmJob` object: the fields its `__init__`
(source lines 312-334) assigns that later methods read.  The bulk copy
`self.__dict__.update(slurm.__dict__)` (line 328) duplicates manager state
into the handle and is not needed by any method modelled here. -/
structure SlurmJob where
  job_id : String
  array_num : Int
  array_job_id : Option String
  submission_details : List (String × String)
deriving DecidableEq, Repr

/-- Model of `SlurmJob.__init__` (source lines 312-334) when called with an
explicit `array_num`.  It records the identifiers, sets `array_job_id` to
`f'{job_id}_{array_num}'` when the parent manager is an array job, and
synchronously runs `scontrol show job <id>` with `check=True` (raising
`CalledProcessError` on non-zero exit) to capture `submission_details`;
`scontrolRes` is the external result of that inspection call. -/
def mkSlurmJob (job_id : String) (isArray : Bool) (array_num : Int)
    (scontrolRes : ProcResult) : Except PyError SlurmJob :=
  match checkRun scontrolRes with
  | .error e => .error e
  | .ok p =>
    match parseScontrol p.stdout with
    | .error e => .error e
    | .ok details =>
      .ok { job_id := job_id, array_num := array_num,
            array_job_id :=
              if isArray then some (job_id ++ "_" ++ toString array_num) else none,
            submission_details := details }

/-- Characters of the fixed submission-acknowledgment prefix
`'Submitted batch job '` of the regex on source line 288. -/
def sbatchPat : List Char :=
  "Submitted batch job ".toList

/-- Scanning loop modelling `re.search(r"Submitted batch job (\d+)", s)`:
find the first position where the literal prefix is followed by at least
one decimal digit and return the maximal digit run there (the capture of
the greedy `\d+`).  Python `\d` also matches non-ASCII digits; scheduler
output is ASCII. -/
def searchJobIdAux : List Char → Option (List Char)
  | [] => none
  | c :: rest =>
    if List.isPrefixOf sbatchPat (c :: rest) then
      let ds := ((c :: rest).drop sbatchPat.length).takeWhile Char.isDigit
      if ds.isEmpty then searchJobIdAux rest else some ds
    else searchJobIdAux rest

/-- Job-identifier extraction from the submit command's standard output
(source line 288): `match.group(1)` when the pattern occurs, else `None`. -/
def searchJobId (s : String) : Option String :=
  (searchJobIdAux s.toList).map String.mk

/-- Model of the submission core of `Slurm.sbatch` (source lines 287-300),
parameterised by the external results of the `sbatch` call and of the
`scontrol` inspection each constructed `SlurmJob` performs.  Script and
config writing (file I/O, lines 275-284) are outside the process model.
Steps: run `sbatch` with `check=True` (non-zero exit raises
`CalledProcessError`); search stdout for the job identifier; with no match,
`self.jobs` stays `[]` and is returned; with a match, an array job builds
one handle per element of the stored range attribute, while the non-array
branch executes `SlurmJob(f'{self.job_id}', self)` — which omits the
required positional parameter `array_num` of `SlurmJob.__init__` (line
312) and therefore raises `TypeError`. -/
def Slurm.sbatchJobs (cfg : SlurmConfig) (sbatchRes scontrolRes : ProcResult) :
    Except PyError (List SlurmJob) :=
  match checkRun sbatchRes with
  | .error e => .error e
  | .ok p =>
    match searchJobId p.stdout with
    | none => .ok []
    | some jid =>
      if cfg.is_array_job then
        match cfg.arrayAttr with
        | none => .error .attributeError
        | some idxs => idxs.mapM (fun i => mkSlurmJob jid true i scontrolRes)
      else .error .typeError

/-- Sentinel returned by `SlurmJob.get_status` when the job is no longer
reported by the scheduler. -/
def notFoundSentinel : String :=
  "COMPLETED or NOT FOUND"

/-- Model of `SlurmJob.get_status` (source lines 361-378): run
`squeue -j <id> -h -o %T` with `check=True` inside a `try`; on non-zero
exit the raised `CalledProcessError` is caught and the sentinel returned;
on success a truthy (non-empty) stdout is returned stripped, an empty
stdout yields the sentinel.  The method always returns a string and never
raises. -/
def SlurmJob.get_status (squeueRes : ProcResult) : String :=
  match checkRun squeueRes with
  | .error _ => notFoundSentinel
  | .ok p => if p.stdout ≠ "" then pyStrip p.stdout else notFoundSentinel

/-- Model of `SlurmJob.is_queued` (source line 404):
`self.get_status() in ('PENDING', 'RUNNING')`. -/
def SlurmJob.is_queued (squeueRes : ProcResult) : Bool :=
  SlurmJob.get_status squeueRes == "PENDING" ||
    SlurmJob.get_status squeueRes == "RUNNING"

/-- Truthiness of the expression `self.is_queued` on source line 415: the
attribute lookup yields the bound method object itself (the call
parentheses are missing), and a bound method is always truthy in Python,
so the guard `if not self.is_queued:` never fires. -/
def isQueuedAttrTruthy : Bool :=
  true

/-- Model of `SlurmJob.cancel` (source lines 406-422).  The first component
records whether the external `scancel` command was invoked, the second the
returned boolean.  After the never-firing guard (see `isQueuedAttrTruthy`),
`scancel <id>` runs with `check=True` inside a `try`: exit zero returns
`True`; `CalledProcessError` is caught and `False` returned. -/
def SlurmJob.cancel (scancelRes : ProcResult) : Bool × Bool :=
  if isQueuedAttrTruthy = false then (false, false)
  else
    match checkRun scancelRes with
    | .ok _ => (true, true)
    | .error _ => (true, false)

/-- Spec-side description of one rendered directive line (spec §4.1):
`#SBATCH --<hyphenated-name>=<value>`, the name with underscores replaced
by hyphens. -/
def directiveLine (p : String × PyVal) : String :=
  "#SBATCH --" ++ p.1.replace "_" "-" ++ "=" ++ pyStrVal p.2

/-- Concrete non-array configuration used as a test vector: two ordinary
directives, one command, the `array` attribute never set. -/
def cfgNonArray : SlurmConfig :=
  ⟨"/bin/bash", [("job_name", .vStr "test"), ("partition", .vStr "gpu")], ["sleep 10"], none⟩

/-- Concrete empty configuration used as a test vector. -/
def cfgEmpty : SlurmConfig :=
  ⟨"/bin/bash", [], [], none⟩

/-- C1: for every configuration without an `array` directive, a submission
whose external submit command exits zero with stdout containing
`Submitted batch job <id>` is claimed to construct exactly one Job Handle
with identifier `<id>` and no array index.  The code cannot do this: line
299 calls `SlurmJob(f'{self.job_id}', self)` while `SlurmJob.__init__`
(line 312) declares `array_num` as a required positional parameter with no
default, so Python raises `TypeError` instead of building the handle.
This theorem evaluates the model at the failing input: the identifier
`4821` is parsed from the acknowledgment, the configuration is not an
array job, and submission nevertheless ends in the `TypeError`. -/
theorem C1_nonarray_submission_raises :
    searchJobId "Submitted batch job 4821\n" = some "4821" ∧
    cfgNonArray.is_array_job = false ∧
    Slurm.sbatchJobs cfgNonArray ⟨0, "Submitted batch job 4821\n", ""⟩
      ⟨0, "JobId=4821", ""⟩ = .error .typeError := by
  refine ⟨by decide, by decide, rfl⟩

/-- C2 counterexample: the external submit command exits zero but its
stdout carries no parseable job identifier; the claim says `submit` fails
with a `SubmissionError`, yet the code raises nothing and returns the
empty job list (`self.jobs` stays `[]`, source lines 292-300). -/
theorem C2_counterexample :
    Slurm.sbatchJobs cfgNonArray ⟨0, "submission acknowledged without id\n", ""⟩
      ⟨0, "JobId=1", ""⟩ = .ok [] :=
  rfl

/-- C2 amended: if the external submit command exits zero but its standard
output contains no parseable job identifier, `sbatch` raises no error and
returns an empty list — no Job Handles are produced, but no
`SubmissionError` is raised either. -/
theorem C2_amended_empty_result (cfg : SlurmConfig)
    (sbatchRes scontrolRes : ProcResult) (h0 : sbatchRes.exitCode = 0)
    (h1 : searchJobId sbatchRes.stdout = none) :
    Slurm.sbatchJobs cfg sbatchRes scontrolRes = .ok [] := by
  simp [Slurm.sbatchJobs, checkRun, h0, h1]

/-- C2 amended, witnessed at a concrete input. -/
theorem C2_amended_witness :
    Slurm.sbatchJobs cfgNonArray ⟨0, "Slurm says hello\n", ""⟩
      ⟨0, "JobId=2", ""⟩ = .ok [] :=
  C2_amended_empty_result cfgNonArray ⟨0, "Slurm says hello\n", ""⟩
    ⟨0, "JobId=2", ""⟩ rfl (by decide)

/-- C9: rendering converts directive names to hyphen form only in the
produced text; the call leaves the stored directive mapping (with its
underscore-form names and values) and the stored command list unchanged. -/
theorem C9_render_frame :
    ∀ cfg : SlurmConfig,
      cfg.renderM.2._args = cfg._args ∧
      cfg.renderM.2._commands = cfg._commands ∧
      cfg.renderM.2 = cfg ∧
      cfg.renderM.1 = cfg.render :=
  fun _ => ⟨rfl, rfl, rfl, rfl⟩

/-- C10: `get_commands` returns the directive mapping — the same value
`get_arguments` returns, namely `config._args` — and not the command list
(its return value has the mapping's type, not the command list's), so the
two accessors always agree. -/
theorem C10_get_commands_is_args :
    ∀ cfg : SlurmConfig,
      Slurm.get_commands cfg = Slurm.get_arguments cfg ∧
      Slurm.get_commands cfg = cfg._args :=
  fun _ => ⟨rfl, rfl⟩

/-- C6: `get_status` returns the (stripped) scheduler-reported state when
the query exits zero with non-empty stdout, and the
`COMPLETED or NOT FOUND` sentinel both when stdout is empty and when the
query exits non-zero; it is a total function (the only exception inside,
`CalledProcessError`, is caught), and `is_queued` is true iff the returned
status is exactly `PENDING` or `RUNNING`. -/
theorem C6_status :
    (∀ r : ProcResult, r.exitCode = 0 → r.stdout ≠ "" →
      SlurmJob.get_status r = pyStrip r.stdout) ∧
    (∀ r : ProcResult, r.stdout = "" →
      SlurmJob.get_status r = notFoundSentinel) ∧
    (∀ r : ProcResult, r.exitCode ≠ 0 →
      SlurmJob.get_status r = notFoundSentinel) ∧
    (∀ r : ProcResult, SlurmJob.is_queued r = true ↔
      (SlurmJob.get_status r = "PENDING" ∨ SlurmJob.get_status r = "RUNNING")) := by
  refine ⟨?_, ?_, ?_, ?_⟩
  · intro r h0 hs
    simp [SlurmJob.get_status, checkRun, h0, hs]
  · intro r hs
    by_cases h0 : r.exitCode = 0 <;>
      simp [SlurmJob.get_status, checkRun, h0, hs]
  · intro r h0
    simp [SlurmJob.get_status, checkRun, h0]
  · intro r
    simp [SlurmJob.is_queued]

/-- C6 witnessed at concrete query results: non-empty output, empty
output, non-zero exit, and the queued test. -/
theorem C6_witness :
    SlurmJob.get_status ⟨0, "RUNNING\n", ""⟩ = "RUNNING" ∧
    SlurmJob.get_status ⟨0, "", ""⟩ = notFoundSentinel ∧
    SlurmJob.get_status ⟨3, "PENDING", "boom"⟩ = notFoundSentinel ∧
    (SlurmJob.is_queued ⟨0, "RUNNING\n", ""⟩ = true ↔
      (SlurmJob.get_status ⟨0, "RUNNING\n", ""⟩ = "PENDING" ∨
        SlurmJob.get_status ⟨0, "RUNNING\n", ""⟩ = "RUNNING")) := by
  refine ⟨?_, C6_status.2.1 ⟨0, "", ""⟩ rfl,
    C6_status.2.2.1 ⟨3, "PENDING", "boom"⟩ (by decide), C6_status.2.2.2 _⟩
  have h := C6_status.1 ⟨0, "RUNNING\n", ""⟩ rfl (by decide)
  rw [h]
  decide

/-- C7: `cancel` invokes the external cancellation command unconditionally
(the guard on line 415 tests the truthiness of the bound method object
`self.is_queued`, which is always true, so the command runs even when the
job is not queued), returns true iff that command exits zero, and returns
false rather than raising on any non-zero exit. -/
theorem C7_cancel :
    (∀ scancelRes : ProcResult, (SlurmJob.cancel scancelRes).1 = true) ∧
    (∀ squeueRes scancelRes : ProcResult, SlurmJob.is_queued squeueRes = false →
      (SlurmJob.cancel scancelRes).1 = true) ∧
    (∀ scancelRes : ProcResult,
      ((SlurmJob.cancel scancelRes).2 = true ↔ scancelRes.exitCode = 0)) := by
  refine ⟨?_, ?_, ?_⟩
  · intro r
    by_cases h : r.exitCode = 0 <;>
      simp [SlurmJob.cancel, checkRun, isQueuedAttrTruthy, h]
  · intro _ r _
    by_cases h : r.exitCode = 0 <;>
      simp [SlurmJob.cancel, checkRun, isQueuedAttrTruthy, h]
  · intro r
    by_cases h : r.exitCode = 0 <;>
      simp [SlurmJob.cancel, checkRun, isQueuedAttrTruthy, h]

/-- C7 witnessed at a job that is not queued (empty status output) and a
cancellation command that exits non-zero: `scancel` is still invoked and
the result is the boolean false, not an exception. -/
theorem C7_witness :
    (SlurmJob.cancel ⟨1, "", "denied"⟩).1 = true ∧
    (SlurmJob.cancel ⟨1, "", "denied"⟩).2 = false := by
  constructor
  · exact C7_cancel.2.1 ⟨0, "", ""⟩ ⟨1, "", "denied"⟩ (by decide)
  · have h := C7_cancel.2.2 ⟨1, "", "denied"⟩
    refine Bool.eq_false_iff.mpr fun hh => ?_
    have := h.mp hh
    norm_num at this

/-- C4: every duration-typed value (a timedelta of `ts` whole seconds) put
under the `time` directive is stored as the string `D-HH:MM:SS` — days
unpadded, hours, minutes and seconds zero-padded to two digits, decomposed
with 86400 s/day, 3600 s/hour and 60 s/minute — and recomposing the four
fields yields exactly `ts` again; any non-duration-typed value (a string
or an integer) bypasses the transform and is stored as given. -/
theorem C4_duration_normalization :
    (∀ ts : Int, ∃ d h m s : Int,
      formatDuration ts =
        toString d ++ "-" ++ pad2 h ++ ":" ++ pad2 m ++ ":" ++ pad2 s ∧
      0 ≤ h ∧ h < 24 ∧ 0 ≤ m ∧ m < 60 ∧ 0 ≤ s ∧ s < 60 ∧
      d * 86400 + h * 3600 + m * 60 + s = ts) ∧
    (∀ (cfg : SlurmConfig) (ts : Int),
      addArgument cfg "time" (.vTimedelta ts) =
        .ok { cfg with _args := setKey cfg._args "time" (.vStr (formatDuration ts)) }) ∧
    (∀ (cfg : SlurmConfig) (s : String),
      addArgument cfg "time" (.vStr s) =
        .ok { cfg with _args := setKey cfg._args "time" (.vStr s) }) ∧
    (∀ (cfg : SlurmConfig) (n : Int),
      addArgument cfg "time" (.vInt n) =
        .ok { cfg with _args := setKey cfg._args "time" (.vInt n) }) := by
  refine ⟨?_, ?_, ?_, ?_⟩
  · intro ts
    refine ⟨ts / 86400, ts % 86400 / 3600, ts % 86400 % 3600 / 60,
      ts % 86400 % 3600 % 60, rfl, ?_, ?_, ?_, ?_, ?_, ?_, ?_⟩ <;> omega
  · intro cfg ts
    simp [addArgument]
  · intro cfg s
    simp [addArgument]
  · intro cfg n
    simp [addArgument]

/-- Length of a materialised Python range. -/
theorem pyRange_length (lo hi : Int) : (pyRange lo hi).length = (hi - lo).toNat := by
  unfold pyRange
  rw [List.length_map, List.length_range]

/-- Element formula of a materialised Python range. -/
theorem pyRange_get (lo hi : Int) (i : Nat) (h : i < (pyRange lo hi).length) :
    (pyRange lo hi).get ⟨i, h⟩ = lo + (i : Int) := by
  simp only [pyRange, List.get_eq_getElem] at h ⊢
  rw [List.getElem_map, List.getElem_range]

/-- Head of a non-empty materialised Python range. -/
theorem pyRange_head (lo hi : Int) (h : lo < hi) : (pyRange lo hi).head? = some lo := by
  obtain ⟨k, hk⟩ : ∃ k, (hi - lo).toNat = k + 1 := ⟨(hi - lo).toNat - 1, by omega⟩
  unfold pyRange
  rw [hk, List.range_succ_eq_map]
  simp

/-- Last element of a non-empty materialised Python range. -/
theorem pyRange_getLast (lo hi : Int) (h : lo < hi) :
    (pyRange lo hi).getLast? = some (hi - 1) := by
  obtain ⟨k, hk⟩ : ∃ k, (hi - lo).toNat = k + 1 := ⟨(hi - lo).toNat - 1, by omega⟩
  unfold pyRange
  rw [hk, List.range_succ, List.map_append]
  rw [List.map_singleton, List.getLast?_concat]
  congr 1
  omega

/-- Stored-string computation on a non-empty range: indexing `val[0]` and
`val[-1]` succeeds and yields the bounds. -/
theorem arrayFromRange_of (lo hi : Int) (h : lo < hi) :
    arrayFromRange (pyRange lo hi) =
      .ok (toString lo ++ "-" ++ toString (hi - 1), pyRange lo hi) := by
  unfold arrayFromRange
  rw [pyRange_head lo hi h, pyRange_getLast lo hi h]

/-- Stored-string computation on an empty range: indexing raises
`IndexError`. -/
theorem arrayFromRange_empty (lo hi : Int) (h : hi ≤ lo) :
    arrayFromRange (pyRange lo hi) = .error .indexError := by
  have he : pyRange lo hi = [] := by
    unfold pyRange
    have h0 : (hi - lo).toNat = 0 := by omega
    rw [h0]
    rfl
  rw [he]
  rfl

/-- C3: array normalization under the `array` directive.  A non-negative
integer `n` becomes the inclusive range `[0, n]`: the stored rendered
string is `0-n` and iteration yields exactly `n + 1` integers, the
`i`-th being `i`.  A range string parsed as the two bounds `a-b` with
`a ≤ b` becomes the inclusive range `[a, b]`: the stored rendered string
is `a-b` and iteration yields exactly `b - a + 1` integers in ascending
order, the `i`-th being `a + i`.  In both cases `add_arguments` stores the
rendered string in the directive mapping and the range object as the
config attribute. -/
theorem C3_array_normalization :
    (∀ n : Int, 0 ≤ n →
      normalizeArray (.vInt n) = .ok ("0-" ++ toString n, pyRange 0 (n + 1)) ∧
      (pyRange 0 (n + 1)).length = n.toNat + 1 ∧
      (∀ (i : Nat) (h : i < (pyRange 0 (n + 1)).length),
        (pyRange 0 (n + 1)).get ⟨i, h⟩ = (i : Int)) ∧
      (∀ cfg : SlurmConfig, addArgument cfg "array" (.vInt n) =
        .ok { cfg with
              _args := setKey cfg._args "array" (.vStr ("0-" ++ toString n)),
              arrayAttr := some (pyRange 0 (n + 1)) })) ∧
    (∀ (s : String) (a b : Int), a ≤ b →
      (pySplit s '-').mapM pyInt = some [a, b] →
      normalizeArray (.vStr s) =
        .ok (toString a ++ "-" ++ toString b, pyRange a (b + 1)) ∧
      ((pyRange a (b + 1)).length : Int) = b - a + 1 ∧
      (∀ (i : Nat) (h : i < (pyRange a (b + 1)).length),
        (pyRange a (b + 1)).get ⟨i, h⟩ = a + i) ∧
      (∀ cfg : SlurmConfig, addArgument cfg "array" (.vStr s) =
        .ok { cfg with
              _args := setKey cfg._args "array"
                (.vStr (toString a ++ "-" ++ toString b)),
              arrayAttr := some (pyRange a (b + 1)) })) := by
  constructor
  · intro n hn
    have hnorm : normalizeArray (.vInt n) =
        .ok ("0-" ++ toString n, pyRange 0 (n + 1)) := by
      have h1 := arrayFromRange_of 0 (n + 1) (by omega)
      have h2 : toString (0 : Int) ++ "-" ++ toString (n + 1 - 1) =
          "0-" ++ toString n := by
        rw [add_sub_cancel_right]
        rfl
      rw [show normalizeArray (.vInt n) = arrayFromRange (pyRange 0 (n + 1)) from rfl,
        h1, h2]
    refine ⟨hnorm, ?_, ?_, ?_⟩
    · rw [pyRange_length]
      omega
    · intro i h
      rw [pyRange_get]
      omega
    · intro cfg
      simp [addArgument, hnorm]
  · intro s a b hab hp
    have hnorm : normalizeArray (.vStr s) =
        .ok (toString a ++ "-" ++ toString b, pyRange a (b + 1)) := by
      have h1 := arrayFromRange_of a (b + 1) (by omega)
      rw [show normalizeArray (.vStr s) =
          (match (pySplit s '-').mapM pyInt with
           | none => .error .valueError
           | some [] => .error .valueError
           | some (p :: ps) =>
             arrayFromRange (pyRange p ((p :: ps).getLast (by simp) + 1))) from rfl,
        hp]
      simpa using h1
    refine ⟨hnorm, ?_, ?_, ?_⟩
    · rw [pyRange_length]
      omega
    · intro i h
      exact pyRange_get a (b + 1) i h
    · intro cfg
      simp [addArgument, hnorm]

/-- C3 witnessed at the integer specification `3` and the range string
`2-5`: the stored strings and materialised inclusive ranges. -/
theorem C3_witness :
    normalizeArray (.vInt 3) = .ok ("0-3", [0, 1, 2, 3]) ∧
    normalizeArray (.vStr "2-5") = .ok ("2-5", [2, 3, 4, 5]) := by
  constructor
  · have h := (C3_array_normalization.1 3 (by decide)).1
    rw [h]
    rfl
  · have h := (C3_array_normalization.2 "2-5" 2 5 (by decide) (by decide)).1
    rw [h]
    rfl

/-- C8: a malformed array specification fails immediately at the point of
the `add_arguments` call, leaving no partially updated state behind (the
call returns an error, not a new configuration).  Unparseable
specifications — some split segment is not an integer — raise the
`ValueError` from `int(...)`; reversed bounds produce an empty range whose
indexing raises `IndexError`; a non-subscriptable value (a timedelta)
raises `TypeError` at the f-string. -/
theorem C8_malformed_array :
    (∀ (cfg : SlurmConfig) (s : String),
      (pySplit s '-').mapM pyInt = none →
      addArgument cfg "array" (.vStr s) = .error .valueError) ∧
    (∀ (cfg : SlurmConfig) (s : String) (a b : Int) (rest : List Int),
      (pySplit s '-').mapM pyInt = some (a :: rest) →
      (a :: rest).getLast? = some b → b < a →
      addArgument cfg "array" (.vStr s) = .error .indexError) ∧
    (∀ (cfg : SlurmConfig) (ts : Int),
      addArgument cfg "array" (.vTimedelta ts) = .error .typeError) := by
  refine ⟨?_, ?_, ?_⟩
  · intro cfg s hp
    have hnorm : normalizeArray (.vStr s) = .error .valueError := by
      rw [show normalizeArray (.vStr s) =
          (match (pySplit s '-').mapM pyInt with
           | none => .error .valueError
           | some [] => .error .valueError
           | some (p :: ps) =>
             arrayFromRange (pyRange p ((p :: ps).getLast (by simp) + 1))) from rfl,
        hp]
    simp [addArgument, hnorm]
  · intro cfg s a b rest hp hlast hba
    have hgl : (a :: rest).getLast (by simp) = b := by
      have := List.getLast?_eq_getLast (a :: rest) (by simp)
      rw [hlast] at this
      exact (Option.some_injective _ this).symm
    have hnorm : normalizeArray (.vStr s) = .error .indexError := by
      rw [show normalizeArray (.vStr s) =
          (match (pySplit s '-').mapM pyInt with
           | none => .error .valueError
           | some [] => .error .valueError
           | some (p :: ps) =>
             arrayFromRange (pyRange p ((p :: ps).getLast (by simp) + 1))) from rfl,
        hp]
      simp only [hgl]
      exact arrayFromRange_empty a (b + 1) (by omega)
    simp [addArgument, hnorm]
  · intro cfg ts
    simp [addArgument, normalizeArray]

/-- C8 witnessed at the unparseable specification `foo` and the
reversed-bounds specification `5-2`. -/
theorem C8_witness :
    addArgument cfgEmpty "array" (.vStr "foo") = .error .valueError ∧
    addArgument cfgEmpty "array" (.vStr "5-2") = .error .indexError :=
  ⟨C8_malformed_array.1 cfgEmpty "foo" (by decide),
   C8_malformed_array.2.1 cfgEmpty "5-2" 5 2 [2] (by decide) (by decide) (by decide)⟩

/-- Unfolding of the accumulator loop of `String.intercalate` into a left
fold that prepends the separator to every element after the first. -/
theorem intercalate_go_eq_foldl (l : List String) (acc : String) :
    String.intercalate.go acc "\n" l =
      l.foldl (fun x y => x ++ "\n" ++ y) acc := by
  induction l generalizing acc with
  | nil => rfl
  | cons x xs ih => rw [String.intercalate.go, List.foldl_cons, ih]

/-- Value of `String.intercalate` on a non-empty list, as a left fold. -/
theorem intercalate_cons_eq_foldl (a : String) (l : List String) :
    String.intercalate "\n" (a :: l) =
      l.foldl (fun x y => x ++ "\n" ++ y) a := by
  rw [String.intercalate]
  exact intercalate_go_eq_foldl l a

/-- Each directive step of the render fold appends one newline followed by
the directive line of spec §4.1. -/
theorem argStep_eq (acc : String) (p : String × PyVal) :
    acc ++ "\n#SBATCH --" ++ p.1.replace "_" "-" ++ "=" ++ pyStrVal p.2 =
      acc ++ "\n" ++ directiveLine p := by
  have hlit : ("\n#SBATCH --" : String) = "\n" ++ "#SBATCH --" := by decide
  simp only [directiveLine, hlit, String.append_assoc]

/-- C5: the rendered script is exactly the newline-joining of a first line
`#!<shell>`, one line `#SBATCH --<name>=<value>` per directive in
insertion order with underscores in the name replaced by hyphens, and one
line per command verbatim in insertion order; and rendering is a function
of exactly the shell, directive and command components, so two
configurations agreeing on those render byte-identical text. -/
theorem C5_render_layout :
    (∀ cfg : SlurmConfig,
      cfg.render = String.intercalate "\n"
        (("#!" ++ cfg.shell) :: (cfg._args.map directiveLine ++ cfg._commands))) ∧
    (∀ (sh : String) (args : List (String × PyVal)) (cmds : List String)
      (x y : Option (List Int)),
      (SlurmConfig.mk sh args cmds x).render =
        (SlurmConfig.mk sh args cmds y).render) := by
  constructor
  · intro cfg
    unfold SlurmConfig.render
    dsimp only
    rw [intercalate_cons_eq_foldl, List.foldl_append, List.foldl_map]
    congr 1
    apply List.foldl_ext
    intro acc p _
    exact argStep_eq acc p
  · intro sh args cmds x y
    rfl

end SupaSlurm
